import Mathlib

/-!
Verification development for the AI Observability Platform ingestion service.

The source consists of:
* `src/api/main.py` — a FastAPI ingestion endpoint `POST /log` whose handler
  `log_telemetry` validates a `TelemetryEvent` (pydantic), draws a fresh
  identifier with `uuid.uuid4()`, defaults the timestamp with
  `event.timestamp or datetime.utcnow()`, builds a `telemetry_record` dict,
  prints it to the console (the database call is commented out), and returns
  `TelemetryResponse(request_id, status="logged")`.
* `src/database/models.py` — a SQLAlchemy declarative model `LLMRequest`
  (table `llm_requests`) with columns id, app_id, model_name, prompt,
  response, latency_ms, created_at, metadata, three single-column indexes
  and two composite indexes, plus a `to_dict` serializer.
* `src/config/settings.py` and `src/database/__init__.py` — configuration
  and packaging plumbing with no logic relevant to the claims.

Time instants are modelled abstractly as naturals ordered chronologically
where only ordering and equality matter (the API layer); the calendar
datetime structure is modelled concretely where its string rendering
matters (`LLMRequest.to_dict`).
-/

/-- Abstract time instant used by the API-layer model; ordering is
chronological ordering. -/
abbrev Time := Nat

/-! ## Embedding of src/api/main.py -/

/-- The raw JSON body of a `POST /log` request, before pydantic validation:
every field may be absent, and numbers arrive as arbitrary JSON numbers
(modelled as rationals). -/
structure RawSubmission where
  app_id : Option String
  model_name : Option String
  prompt : Option String
  response : Option String
  latency_ms : Option ℚ
  token_count : Option Int
  timestamp : Option Time
deriving DecidableEq, Repr

/-- The pydantic model `TelemetryEvent` (src/api/main.py lines 24-31) after
successful validation.  `latency_ms` is declared `int` in the source, so the
validated value is an integer. -/
structure TelemetryEvent where
  app_id : String
  model_name : String
  prompt : String
  response : String
  latency_ms : Int
  token_count : Option Int
  timestamp : Option Time
deriving DecidableEq, Repr

/-- Pydantic validation of `TelemetryEvent` per the annotations in
src/api/main.py lines 24-31: `app_id`, `model_name`, `prompt`, `response`
and `latency_ms` are required (`...`); `latency_ms` is an `int` field, so a
JSON number with a fractional part is rejected (lax-mode int coercion), and
carries the constraint `ge=0`; `token_count` and `timestamp` are optional.
FastAPI turns a validation failure into a 422 client error before the
handler runs. -/
def TelemetryEvent.validate (raw : RawSubmission) : Except String TelemetryEvent :=
  match raw.app_id, raw.model_name, raw.prompt, raw.response, raw.latency_ms with
  | some a, some m, some p, some r, some l =>
      if l.den = 1 then
        if 0 ≤ l then
          .ok { app_id := a, model_name := m, prompt := p, response := r,
                latency_ms := l.num, token_count := raw.token_count,
                timestamp := raw.timestamp }
        else .error "latency_ms: input should be greater than or equal to 0"
      else .error "latency_ms: input should be a valid integer"
  | _, _, _, _, _ => .error "field required"

/-- The response model `TelemetryResponse` (src/api/main.py lines 34-36). -/
structure TelemetryResponse where
  request_id : String
  status : String
deriving DecidableEq, Repr

/-- The `telemetry_record` dict built by the handler
(src/api/main.py lines 63-73). -/
structure TelemetryRecord where
  id : String
  app_id : String
  model_name : String
  prompt : String
  response : String
  latency_ms : Int
  token_count : Option Int
  timestamp : Time
deriving DecidableEq, Repr

/-- State of the system across requests: the contents of the storage layer
(the `llm_requests` fact store the commented-out database code would write
to) and the number of `uuid.uuid4()` draws made so far. -/
structure SysState where
  store : List TelemetryRecord
  uuidCalls : Nat
deriving DecidableEq, Repr

/-- Outcome of one `POST /log` request: a 422 client error from pydantic
validation, or the handler's success response together with the
`telemetry_record` it constructed. -/
inductive RequestOutcome where
  | clientError (detail : String)
  | success (resp : TelemetryResponse) (record : TelemetryRecord)
deriving DecidableEq, Repr

/-- Whether the outcome is a client-error rejection. -/
def RequestOutcome.isClientError : RequestOutcome → Bool
  | .clientError _ => true
  | .success _ _ => false

/-- One `POST /log` request (src/api/main.py lines 52-88).  `uuidGen` is the
entropy stream behind `uuid.uuid4()`: the n-th draw returns `uuidGen n`.
`now` is the wall clock read by `datetime.utcnow()` during this request.
On validation failure FastAPI rejects before the handler runs, so the state
is untouched.  On success the handler draws a fresh identifier, defaults the
timestamp (`event.timestamp or datetime.utcnow()`), builds
`telemetry_record`, prints it — the `session.add` / `session.commit` calls
are commented out in the source, so the store is left unchanged — and
returns `TelemetryResponse(request_id, status="logged")`. -/
def step (uuidGen : Nat → String) (raw : RawSubmission) (now : Time)
    (s : SysState) : RequestOutcome × SysState :=
  match TelemetryEvent.validate raw with
  | .error e => (.clientError e, s)
  | .ok event =>
      let request_id := uuidGen s.uuidCalls
      let event_timestamp := event.timestamp.getD now
      let telemetry_record : TelemetryRecord :=
        { id := request_id
          app_id := event.app_id
          model_name := event.model_name
          prompt := event.prompt
          response := event.response
          latency_ms := event.latency_ms
          token_count := event.token_count
          timestamp := event_timestamp }
      (.success { request_id := request_id, status := "logged" } telemetry_record,
        { s with uuidCalls := s.uuidCalls + 1 })

/-- A run of the service: process a list of requests in order, each with the
wall-clock instant at which it is handled, threading the state. -/
def runFrom (uuidGen : Nat → String) (s : SysState) :
    List (RawSubmission × Time) → List RequestOutcome × SysState
  | [] => ([], s)
  | (raw, now) :: rest =>
      let (out, s₁) := step uuidGen raw now s
      let (outs, s₂) := runFrom uuidGen s₁ rest
      (out :: outs, s₂)

/-- The identifiers returned to callers by the successful requests of a run,
in order. -/
def issuedIds (outs : List RequestOutcome) : List String :=
  outs.filterMap fun o =>
    match o with
    | .success resp _ => some resp.request_id
    | .clientError _ => none

/-- The timestamps of the records of successful requests whose submission
omitted the client timestamp (so the system clock supplied them), paired up
with their inputs, in assignment order. -/
def sysAssignedTimes (pairs : List ((RawSubmission × Time) × RequestOutcome)) :
    List Time :=
  pairs.filterMap fun p =>
    match p.1.1.timestamp, p.2 with
    | none, .success _ record => some record.timestamp
    | _, _ => none

/-! ## Embedding of src/database/models.py -/

/-- A calendar datetime as held by a SQLAlchemy `DateTime` column (Python
`datetime.datetime`). -/
structure PyDateTime where
  year : Nat
  month : Nat
  day : Nat
  hour : Nat
  minute : Nat
  second : Nat
  microsecond : Nat
deriving DecidableEq, Repr

/-- Zero-padded decimal rendering to the given width, as Python produces
for datetime components. -/
def padNum (width : Nat) (n : Nat) : String :=
  let s := toString n
  let l := s.length
  if l < width then String.mk (List.replicate (width - l) '0') ++ s else s

/-- Python `datetime.isoformat()`: `YYYY-MM-DDTHH:MM:SS`, with a
`.ffffff` microseconds suffix only when the microsecond field is nonzero. -/
def PyDateTime.isoformat (t : PyDateTime) : String :=
  padNum 4 t.year ++ "-" ++ padNum 2 t.month ++ "-" ++ padNum 2 t.day ++ "T" ++
  padNum 2 t.hour ++ ":" ++ padNum 2 t.minute ++ ":" ++ padNum 2 t.second ++
  (if t.microsecond = 0 then "" else "." ++ padNum 6 t.microsecond)

/-- A JSON object stored in the `metadata` column; the source enforces no
schema on it, so it is modelled as an opaque list of key-value pairs. -/
structure JsonObj where
  pairs : List (String × String)
deriving DecidableEq, Repr

/-- A Python value appearing in the dictionary returned by
`LLMRequest.to_dict`. -/
inductive DictValue where
  | null
  | int (i : Int)
  | str (s : String)
  | num (q : ℚ)
  | json (j : JsonObj)
deriving DecidableEq, Repr

/-- A stored row of the `llm_requests` table
(src/database/models.py lines 26-166).  A stored row has its integer
autoincrement primary key set; `latency_ms` is a `Float` column;
`created_at` and `metadata` are nullable at the Python-object level. -/
structure LLMRequest where
  id : Int
  app_id : String
  model_name : String
  prompt : String
  response : String
  latency_ms : ℚ
  created_at : Option PyDateTime
  metadata : Option JsonObj
deriving DecidableEq, Repr

/-- `LLMRequest.to_dict` (src/database/models.py lines 148-166): the
dictionary literal returned by the source, key by key.  `created_at` maps to
`self.created_at.isoformat() if self.created_at else None`; `metadata` maps
to `self.metadata` (which may be `None`). -/
def LLMRequest.to_dict (r : LLMRequest) : List (String × DictValue) :=
  [ ("id", .int r.id),
    ("app_id", .str r.app_id),
    ("model_name", .str r.model_name),
    ("prompt", .str r.prompt),
    ("response", .str r.response),
    ("latency_ms", .num r.latency_ms),
    ("created_at",
      match r.created_at with
      | some t => .str t.isoformat
      | none => .null),
    ("metadata",
      match r.metadata with
      | some j => .json j
      | none => .null) ]

/-- Declarative description of one column of a table, as written in the
SQLAlchemy model: its name, SQL type, nullability, primary-key and
autoincrement flags, whether `index=True` declares a single-column index on
it, and whether it carries the `datetime.utcnow` default. -/
structure ColumnDef where
  name : String
  sqlType : String
  nullable : Bool
  primaryKey : Bool
  autoincrement : Bool
  indexed : Bool
  defaultUtcnow : Bool
deriving DecidableEq, Repr

/-- A named composite index from `__table_args__`. -/
structure IndexDef where
  name : String
  columns : List String
deriving DecidableEq, Repr

/-- Declarative description of one table. -/
structure TableDef where
  name : String
  columns : List ColumnDef
  compositeIndexes : List IndexDef
deriving DecidableEq, Repr

/-- The `llm_requests` table exactly as declared in
src/database/models.py lines 26-135: eight columns (id, app_id, model_name,
prompt, response, latency_ms, created_at, metadata), `index=True` on
app_id, model_name and created_at, and the two composite indexes of
`__table_args__`. -/
def llm_requests : TableDef :=
  { name := "llm_requests"
    columns :=
      [ { name := "id", sqlType := "Integer", nullable := false,
          primaryKey := true, autoincrement := true, indexed := false,
          defaultUtcnow := false },
        { name := "app_id", sqlType := "String(255)", nullable := false,
          primaryKey := false, autoincrement := false, indexed := true,
          defaultUtcnow := false },
        { name := "model_name", sqlType := "String(255)", nullable := false,
          primaryKey := false, autoincrement := false, indexed := true,
          defaultUtcnow := false },
        { name := "prompt", sqlType := "Text", nullable := false,
          primaryKey := false, autoincrement := false, indexed := false,
          defaultUtcnow := false },
        { name := "response", sqlType := "Text", nullable := false,
          primaryKey := false, autoincrement := false, indexed := false,
          defaultUtcnow := false },
        { name := "latency_ms", sqlType := "Float", nullable := false,
          primaryKey := false, autoincrement := false, indexed := false,
          defaultUtcnow := false },
        { name := "created_at", sqlType := "DateTime", nullable := false,
          primaryKey := false, autoincrement := false, indexed := true,
          defaultUtcnow := true },
        { name := "metadata", sqlType := "JSON", nullable := true,
          primaryKey := false, autoincrement := false, indexed := false,
          defaultUtcnow := false } ]
    compositeIndexes :=
      [ { name := "idx_app_created", columns := ["app_id", "created_at"] },
        { name := "idx_model_created", columns := ["model_name", "created_at"] } ] }

/-- The persisted layout declared by src/database/models.py: the single
declarative model `LLMRequest` is the only table. -/
def databaseSchema : List TableDef := [llm_requests]

/-! ## Storage query operations, modelled from the spec

The spec (§4.2) requires `queryByApp` and `queryByModel` on the Storage
Layer; the source declares the schema and indexes but implements no query
function (`database/db.py` is announced in comments and absent). -/

/-- Modelled from the spec: the persisted `TelemetryRecord` entity of §3.
The source has no persistence wiring, so the store over which the spec's
query operations run is modelled from the spec's field table. -/
structure SpecTelemetryRecord where
  id : String
  app_id : String
  model_name : String
  prompt : String
  response : String
  latency_ms : ℚ
  token_count : Option Int
  created_at : Time
  metadata : Option JsonObj
deriving DecidableEq, Repr

/-- Insert a record into a list sorted by `created_at`, keeping it sorted. -/
def insertByCreated (r : SpecTelemetryRecord) :
    List SpecTelemetryRecord → List SpecTelemetryRecord
  | [] => [r]
  | x :: xs =>
      if r.created_at ≤ x.created_at then r :: x :: xs
      else x :: insertByCreated r xs

/-- Sort a list of records by `created_at` ascending (insertion sort). -/
def sortByCreated : List SpecTelemetryRecord → List SpecTelemetryRecord
  | [] => []
  | x :: xs => insertByCreated x (sortByCreated xs)

/-- Modelled from the spec: `queryByApp(app_id)` (§4.2) — the records of the
store whose `app_id` matches exactly, ordered by `created_at` ascending;
no query function exists in the source. -/
def queryByApp (store : List SpecTelemetryRecord) (app : String) :
    List SpecTelemetryRecord :=
  sortByCreated (store.filter fun r => r.app_id = app)

/-- Modelled from the spec: `queryByModel(model_name)` (§4.2) — the records
of the store whose `model_name` matches exactly, ordered by `created_at`
ascending; no query function exists in the source. -/
def queryByModel (store : List SpecTelemetryRecord) (model : String) :
    List SpecTelemetryRecord :=
  sortByCreated (store.filter fun r => r.model_name = model)

/-! ## Helper lemmas about validation and the request step -/

/-- Characterization of a successful pydantic validation: every required
field was present, the latency was an integer-valued non-negative number,
and the optional fields are copied through. -/
theorem validate_ok_spec (raw : RawSubmission) (ev : TelemetryEvent)
    (h : TelemetryEvent.validate raw = .ok ev) :
    raw.app_id = some ev.app_id ∧ raw.model_name = some ev.model_name ∧
    raw.prompt = some ev.prompt ∧ raw.response = some ev.response ∧
    raw.latency_ms = some ((ev.latency_ms : ℚ)) ∧ 0 ≤ ev.latency_ms ∧
    ev.token_count = raw.token_count ∧ ev.timestamp = raw.timestamp := by
  obtain ⟨a, m, p, r, l, tc, ts⟩ := raw
  cases a <;> cases m <;> cases p <;> cases r <;> cases l <;>
    simp_all only [TelemetryEvent.validate, reduceCtorEq]
  rename_i l
  by_cases hden : l.den = 1
  · by_cases hnn : (0 : ℚ) ≤ l
    · simp only [hden, hnn, if_true, Except.ok.injEq] at h
      subst h
      have hl : ((l.num : ℚ)) = l := by
        conv_rhs => rw [← Rat.num_div_den l]
        rw [hden]
        simp
      refine ⟨rfl, rfl, rfl, rfl, ?_, ?_, rfl, rfl⟩
      · simp [hl]
      · exact_mod_cast hl ▸ hnn
    · simp [hden, hnn] at h
  · simp [hden] at h

/-- The binary outcome of the step, unfolded on a successful validation. -/
theorem step_ok (uuidGen : Nat → String) (raw : RawSubmission) (now : Time)
    (s : SysState) (ev : TelemetryEvent)
    (hv : TelemetryEvent.validate raw = .ok ev) :
    step uuidGen raw now s =
      (.success { request_id := uuidGen s.uuidCalls, status := "logged" }
        { id := uuidGen s.uuidCalls
          app_id := ev.app_id
          model_name := ev.model_name
          prompt := ev.prompt
          response := ev.response
          latency_ms := ev.latency_ms
          token_count := ev.token_count
          timestamp := ev.timestamp.getD now },
        { s with uuidCalls := s.uuidCalls + 1 }) := by
  simp [step, hv]

/-- A submission with a missing required field, or with a negative
`latency_ms`, in the sense of the claims. -/
def missingOrNegative (raw : RawSubmission) : Prop :=
  raw.app_id = none ∨ raw.model_name = none ∨ raw.prompt = none ∨
  raw.response = none ∨ raw.latency_ms = none ∨
  ∃ q, raw.latency_ms = some q ∧ q < 0

/-- Pydantic rejects every submission with a missing required field or a
negative latency. -/
theorem validate_rejects (raw : RawSubmission) (h : missingOrNegative raw) :
    ∃ e, TelemetryEvent.validate raw = .error e := by
  obtain ⟨a, m, p, r, l, tc, ts⟩ := raw
  simp only [missingOrNegative] at h
  cases a <;> cases m <;> cases p <;> cases r <;> cases l <;>
    simp_all only [TelemetryEvent.validate, Option.some.injEq, reduceCtorEq,
      false_or, exists_eq_left', or_false, or_self] <;>
    try exact ⟨_, rfl⟩
  rename_i l
  by_cases hden : l.den = 1
  · have hnn : ¬ (0 : ℚ) ≤ l := not_le.mpr h
    exact ⟨"latency_ms: input should be greater than or equal to 0",
      by simp [hden, hnn]⟩
  · exact ⟨"latency_ms: input should be a valid integer", by simp [hden]⟩

/-! ## Concrete inputs used to evaluate the model -/

/-- A fixed value standing for one concrete `uuid.uuid4()` draw. -/
def uuidZero : String := "00000000-0000-4000-8000-000000000000"

/-- A concrete entropy stream for `uuid.uuid4()`. -/
def uuidGen0 : Nat → String := fun _ => uuidZero

/-- The scenario submission of spec §8: all required fields present,
`latency_ms = 120`, no token count, no client timestamp. -/
def scenarioSubmission : RawSubmission :=
  { app_id := some "chatbot-v1", model_name := some "gpt-4o-mini",
    prompt := some "hi", response := some "hello", latency_ms := some 120,
    token_count := none, timestamp := none }

/-- The scenario submission with a client-supplied timestamp. -/
def timedSubmission : RawSubmission :=
  { scenarioSubmission with timestamp := some 3 }

/-- The scenario submission with a client-supplied token count. -/
def tokenSubmission : RawSubmission :=
  { scenarioSubmission with token_count := some 42 }

/-- The scenario submission with its required `prompt` field missing and a
negative latency. -/
def missingPromptSubmission : RawSubmission :=
  { scenarioSubmission with prompt := none, latency_ms := some (-5 : ℚ) }

/-- The scenario submission with the fractional latency `120.5`. -/
def fractionalSubmission : RawSubmission :=
  { scenarioSubmission with latency_ms := some (120.5 : ℚ) }

/-- The validated event corresponding to `scenarioSubmission`. -/
def scenarioEvent : TelemetryEvent :=
  { app_id := "chatbot-v1", model_name := "gpt-4o-mini", prompt := "hi",
    response := "hello", latency_ms := 120, token_count := none,
    timestamp := none }

theorem scenario_validate :
    TelemetryEvent.validate scenarioSubmission = .ok scenarioEvent := by
  norm_num [TelemetryEvent.validate, scenarioSubmission, scenarioEvent]

theorem timed_validate :
    TelemetryEvent.validate timedSubmission =
      .ok { scenarioEvent with timestamp := some 3 } := by
  norm_num [TelemetryEvent.validate, timedSubmission, scenarioSubmission,
    scenarioEvent]

theorem token_validate :
    TelemetryEvent.validate tokenSubmission =
      .ok { scenarioEvent with token_count := some 42 } := by
  norm_num [TelemetryEvent.validate, tokenSubmission, scenarioSubmission,
    scenarioEvent]

theorem scenario_step_eq :
    step uuidGen0 scenarioSubmission 100 { store := [], uuidCalls := 0 } =
      (.success { request_id := uuidZero, status := "logged" }
        { id := uuidZero, app_id := "chatbot-v1", model_name := "gpt-4o-mini",
          prompt := "hi", response := "hello", latency_ms := 120,
          token_count := none, timestamp := 100 },
        { store := [], uuidCalls := 1 }) := by
  rw [step_ok uuidGen0 scenarioSubmission 100 _ _ scenario_validate]
  rfl

theorem timed_step_eq :
    step uuidGen0 timedSubmission 9 { store := [], uuidCalls := 0 } =
      (.success { request_id := uuidZero, status := "logged" }
        { id := uuidZero, app_id := "chatbot-v1", model_name := "gpt-4o-mini",
          prompt := "hi", response := "hello", latency_ms := 120,
          token_count := none, timestamp := 3 },
        { store := [], uuidCalls := 1 }) := by
  rw [step_ok uuidGen0 timedSubmission 9 _ _ timed_validate]
  rfl

theorem token_step_eq :
    step uuidGen0 tokenSubmission 100 { store := [], uuidCalls := 0 } =
      (.success { request_id := uuidZero, status := "logged" }
        { id := uuidZero, app_id := "chatbot-v1", model_name := "gpt-4o-mini",
          prompt := "hi", response := "hello", latency_ms := 120,
          token_count := some 42, timestamp := 100 },
        { store := [], uuidCalls := 1 }) := by
  rw [step_ok uuidGen0 tokenSubmission 100 _ _ token_validate]
  rfl

/-! ## Claim theorems: ingestion endpoint -/

/-- C1: the claim that a successful invocation hands exactly one record to
the storage layer before the success response is refuted on the code: on
the spec §8 scenario submission the endpoint returns the success response
`status = "logged"` with a fresh identifier while the storage layer
receives nothing (the store stays empty) — the persistence call is
commented out in src/api/main.py. -/
theorem C1_success_without_persistence :
    ((step uuidGen0 scenarioSubmission 100 { store := [], uuidCalls := 0 }).1 =
      .success { request_id := uuidZero, status := "logged" }
        { id := uuidZero, app_id := "chatbot-v1", model_name := "gpt-4o-mini",
          prompt := "hi", response := "hello", latency_ms := 120,
          token_count := none, timestamp := 100 }) ∧
    (step uuidGen0 scenarioSubmission 100
      { store := [], uuidCalls := 0 }).2.store = [] := by
  rw [scenario_step_eq]
  exact ⟨rfl, rfl⟩

/-- C2: every submission with a missing required field (`app_id`,
`model_name`, `prompt`, `response`, `latency_ms`) or a negative
`latency_ms` is rejected with a client-error classification, leaving the
system state (the store and the identifier draws) completely unchanged, so
no identifier is issued and no record is created. -/
theorem C2_invalid_rejected_atomically (g : Nat → String)
    (raw : RawSubmission) (now : Time) (s : SysState)
    (h : missingOrNegative raw) :
    ((step g raw now s).1).isClientError = true ∧ (step g raw now s).2 = s := by
  obtain ⟨e, he⟩ := validate_rejects raw h
  simp [step, he, RequestOutcome.isClientError]

/-- Witness for C2 at the concrete submission missing its `prompt`. -/
theorem C2_witness :
    ((step uuidGen0 missingPromptSubmission 7
        { store := [], uuidCalls := 0 }).1).isClientError = true ∧
    (step uuidGen0 missingPromptSubmission 7
        { store := [], uuidCalls := 0 }).2 = { store := [], uuidCalls := 0 } :=
  C2_invalid_rejected_atomically uuidGen0 missingPromptSubmission 7
    { store := [], uuidCalls := 0 } (Or.inr (Or.inr (Or.inl rfl)))

/-- C4: for every accepted submission, the constructed record's timestamp
equals the client-supplied timestamp when one is provided (any value is
accepted as-is), and otherwise equals the wall clock read during the
request (`event.timestamp or datetime.utcnow()`). -/
theorem C4_created_at_defaulting (g : Nat → String) (raw : RawSubmission)
    (now : Time) (s s₂ : SysState) (resp : TelemetryResponse)
    (rec : TelemetryRecord)
    (h : step g raw now s = (.success resp rec, s₂)) :
    (∀ t, raw.timestamp = some t → rec.timestamp = t) ∧
    (raw.timestamp = none → rec.timestamp = now) := by
  cases hv : TelemetryEvent.validate raw with
  | error e => simp [step, hv] at h
  | ok ev =>
      rw [step_ok g raw now s ev hv] at h
      have hts : ev.timestamp = raw.timestamp :=
        (validate_ok_spec raw ev hv).2.2.2.2.2.2.2
      injection h with h1 h2
      injection h1 with hresp hrec
      subst hrec
      constructor
      · intro t ht
        simp [hts, ht]
      · intro ht
        simp [hts, ht]

/-- Witness for C4: with a client timestamp `3` the record carries `3`;
without one, it carries the wall-clock instant `100`. -/
theorem C4_witness :
    ({ id := uuidZero, app_id := "chatbot-v1", model_name := "gpt-4o-mini",
       prompt := "hi", response := "hello", latency_ms := 120,
       token_count := none, timestamp := 3 } : TelemetryRecord).timestamp = 3 ∧
    ({ id := uuidZero, app_id := "chatbot-v1", model_name := "gpt-4o-mini",
       prompt := "hi", response := "hello", latency_ms := 120,
       token_count := none, timestamp := 100 } : TelemetryRecord).timestamp
      = 100 :=
  ⟨(C4_created_at_defaulting uuidGen0 timedSubmission 9 _ _ _ _
      timed_step_eq).1 3 rfl,
   (C4_created_at_defaulting uuidGen0 scenarioSubmission 100 _ _ _ _
      scenario_step_eq).2 rfl⟩

/-- C8: the claim that every non-negative number (integer or not) is
accepted as `latency_ms` with its value preserved is refuted on the code:
the pydantic field is declared `int`, so the submission with
`latency_ms = 120.5` and all required fields present is rejected as a
client error (in contrast, src/database/models.py declares the column as
`Float` and its own usage example stores `342.5`). -/
theorem C8_fractional_latency_rejected :
    TelemetryEvent.validate fractionalSubmission =
      .error "latency_ms: input should be a valid integer" ∧
    ∀ g now s, ((step g fractionalSubmission now s).1).isClientError = true ∧
      (step g fractionalSubmission now s).2 = s := by
  have hden : (120.5 : ℚ).den = 2 := by norm_num
  have hv : TelemetryEvent.validate fractionalSubmission =
      .error "latency_ms: input should be a valid integer" := by
    simp [TelemetryEvent.validate, fractionalSubmission, scenarioSubmission,
      hden]
  exact ⟨hv, fun g now s => by simp [step, hv, RequestOutcome.isClientError]⟩

/-! ## Claim theorems: storage schema and serialization -/

/-- C6: the persisted layout declared by src/database/models.py is exactly
one fact table, `llm_requests`, and its `__table_args__` declare exactly
two composite secondary indexes, keyed on `(app_id, created_at)` and on
`(model_name, created_at)`. -/
theorem C6_one_table_two_composite_indexes :
    databaseSchema.map TableDef.name = ["llm_requests"] ∧
    databaseSchema.length = 1 ∧
    llm_requests.compositeIndexes.map IndexDef.columns =
      [["app_id", "created_at"], ["model_name", "created_at"]] ∧
    llm_requests.compositeIndexes.length = 2 := by
  refine ⟨rfl, rfl, rfl, rfl⟩

/-- A concrete stored row, after the example instance constructed in
src/database/models.py. -/
def sampleRow : LLMRequest :=
  { id := 1, app_id := "demo_chatbot", model_name := "gpt-3.5-turbo",
    prompt := "What is the capital of France?",
    response := "Paris is the capital of France.",
    latency_ms := 342, created_at := some ⟨2024, 1, 2, 3, 4, 5, 0⟩,
    metadata := none }

/-- C7 counterexample: the claim that every persisted record carries a
`token_count` field is false — the `llm_requests` schema declares no
`token_count` column, and the serialized form of a concrete stored row has
no `token_count` key. -/
theorem C7_counterexample :
    "token_count" ∉ llm_requests.columns.map ColumnDef.name ∧
    "token_count" ∉ sampleRow.to_dict.map Prod.fst := by
  exact ⟨by decide, by decide⟩

/-- C7 (amended): the ingestion layer accepts an optional integer
`token_count` and carries the supplied value unchanged in the in-memory
telemetry record it constructs, but the persisted `llm_requests` schema has
no `token_count` column, so the value is not part of the persisted
record. -/
theorem C7_token_count_in_memory_only (g : Nat → String)
    (raw : RawSubmission) (now : Time) (s s₂ : SysState)
    (resp : TelemetryResponse) (rec : TelemetryRecord)
    (h : step g raw now s = (.success resp rec, s₂)) :
    rec.token_count = raw.token_count ∧
    "token_count" ∉ llm_requests.columns.map ColumnDef.name := by
  cases hv : TelemetryEvent.validate raw with
  | error e => simp [step, hv] at h
  | ok ev =>
      rw [step_ok g raw now s ev hv] at h
      have htc : ev.token_count = raw.token_count :=
        (validate_ok_spec raw ev hv).2.2.2.2.2.2.1
      injection h with h1 h2
      injection h1 with hresp hrec
      subst hrec
      exact ⟨htc, by decide⟩

/-- Witness for C7 (amended) at the concrete submission carrying
`token_count = 42`. -/
theorem C7_witness :
    ({ id := uuidZero, app_id := "chatbot-v1", model_name := "gpt-4o-mini",
       prompt := "hi", response := "hello", latency_ms := 120,
       token_count := some 42, timestamp := 100 } :
        TelemetryRecord).token_count = some 42 ∧
    "token_count" ∉ llm_requests.columns.map ColumnDef.name :=
  ⟨((C7_token_count_in_memory_only uuidGen0 tokenSubmission 100 _ _ _ _
      token_step_eq).1).trans rfl,
   (C7_token_count_in_memory_only uuidGen0 tokenSubmission 100 _ _ _ _
      token_step_eq).2⟩

/-- C10: for every stored `LLMRequest` row, `to_dict` returns a dictionary
with exactly the keys id, app_id, model_name, prompt, response,
latency_ms, created_at and metadata (in particular no `token_count` key);
`created_at` maps to the ISO-8601 rendering of the stored timestamp when
it is set and to `None` otherwise, and every other key maps to the stored
field value unchanged. -/
theorem C10_to_dict_contract (r : LLMRequest) :
    r.to_dict.map Prod.fst =
      ["id", "app_id", "model_name", "prompt", "response", "latency_ms",
       "created_at", "metadata"] ∧
    "token_count" ∉ r.to_dict.map Prod.fst ∧
    r.to_dict.lookup "id" = some (.int r.id) ∧
    r.to_dict.lookup "app_id" = some (.str r.app_id) ∧
    r.to_dict.lookup "model_name" = some (.str r.model_name) ∧
    r.to_dict.lookup "prompt" = some (.str r.prompt) ∧
    r.to_dict.lookup "response" = some (.str r.response) ∧
    r.to_dict.lookup "latency_ms" = some (.num r.latency_ms) ∧
    (∀ t, r.created_at = some t →
      r.to_dict.lookup "created_at" = some (.str t.isoformat)) ∧
    (r.created_at = none → r.to_dict.lookup "created_at" = some .null) ∧
    (∀ j, r.metadata = some j →
      r.to_dict.lookup "metadata" = some (.json j)) ∧
    (r.metadata = none → r.to_dict.lookup "metadata" = some .null) := by
  refine ⟨by simp [LLMRequest.to_dict], by simp [LLMRequest.to_dict],
    by simp [LLMRequest.to_dict, List.lookup],
    by simp [LLMRequest.to_dict, List.lookup],
    by simp [LLMRequest.to_dict, List.lookup],
    by simp [LLMRequest.to_dict, List.lookup],
    by simp [LLMRequest.to_dict, List.lookup],
    by simp [LLMRequest.to_dict, List.lookup],
    fun t ht => by simp [LLMRequest.to_dict, List.lookup, ht],
    fun ht => by simp [LLMRequest.to_dict, List.lookup, ht],
    fun j hj => by simp [LLMRequest.to_dict, List.lookup, hj],
    fun hj => by simp [LLMRequest.to_dict, List.lookup, hj]⟩

/-- Witness for C10 at the concrete stored row: the exact key list, the
ISO rendering of its set `created_at`, and the `None` metadata. -/
theorem C10_witness :
    sampleRow.to_dict.map Prod.fst =
      ["id", "app_id", "model_name", "prompt", "response", "latency_ms",
       "created_at", "metadata"] ∧
    sampleRow.to_dict.lookup "created_at" =
      some (.str (PyDateTime.isoformat ⟨2024, 1, 2, 3, 4, 5, 0⟩)) ∧
    sampleRow.to_dict.lookup "metadata" = some .null :=
  ⟨(C10_to_dict_contract sampleRow).1,
   (C10_to_dict_contract sampleRow).2.2.2.2.2.2.2.2.1 ⟨2024, 1, 2, 3, 4, 5, 0⟩
     rfl,
   (C10_to_dict_contract sampleRow).2.2.2.2.2.2.2.2.2.2.2 rfl⟩

/-! ## Claim theorems: identifier uniqueness and timestamp monotonicity -/

/-- The step on a failed validation, as an equation. -/
theorem step_error (g : Nat → String) (raw : RawSubmission) (now : Time)
    (s : SysState) (e : String)
    (hv : TelemetryEvent.validate raw = .error e) :
    step g raw now s = (.clientError e, s) := by
  simp [step, hv]

/-- Unfolding equation for a run on a non-empty request list. -/
theorem runFrom_cons (g : Nat → String) (s : SysState) (raw : RawSubmission)
    (now : Time) (rest : List (RawSubmission × Time)) :
    runFrom g s ((raw, now) :: rest) =
      ((step g raw now s).1 :: (runFrom g (step g raw now s).2 rest).1,
        (runFrom g (step g raw now s).2 rest).2) := by
  rcases hstep : step g raw now s with ⟨out, s₁⟩
  rcases hrest : runFrom g s₁ rest with ⟨outs, s₂⟩
  simp [runFrom, hstep, hrest]

theorem issuedIds_clientError_cons (e : String)
    (outs : List RequestOutcome) :
    issuedIds (.clientError e :: outs) = issuedIds outs := rfl

theorem issuedIds_success_cons (resp : TelemetryResponse)
    (rec : TelemetryRecord) (outs : List RequestOutcome) :
    issuedIds (.success resp rec :: outs) =
      resp.request_id :: issuedIds outs := rfl

/-- Every identifier issued during a run started in state `s` comes from a
uuid draw with index at least `s.uuidCalls`. -/
theorem mem_issuedIds_runFrom (g : Nat → String)
    (inputs : List (RawSubmission × Time)) :
    ∀ s x, x ∈ issuedIds (runFrom g s inputs).1 →
      ∃ k, s.uuidCalls ≤ k ∧ x = g k := by
  induction inputs with
  | nil =>
      intro s x hx
      simp [runFrom, issuedIds] at hx
  | cons p rest ih =>
      intro s x hx
      obtain ⟨raw, now⟩ := p
      rw [runFrom_cons] at hx
      cases hv : TelemetryEvent.validate raw with
      | error e =>
          simp only [step_error g raw now s e hv,
            issuedIds_clientError_cons] at hx
          exact ih s x hx
      | ok ev =>
          simp only [step_ok g raw now s ev hv, issuedIds_success_cons,
            List.mem_cons] at hx
          rcases hx with hx | hx
          · exact ⟨s.uuidCalls, le_refl _, hx⟩
          · obtain ⟨k, hk, hxk⟩ := ih _ x hx
            simp only at hk
            exact ⟨k, by omega, hxk⟩

/-- A successful step carries the drawn identifier both as the returned
`request_id` and as the `id` field of the constructed record. -/
theorem step_success_id (g : Nat → String) (raw : RawSubmission)
    (now : Time) (s s₂ : SysState) (resp : TelemetryResponse)
    (rec : TelemetryRecord)
    (h : step g raw now s = (.success resp rec, s₂)) :
    rec.id = resp.request_id := by
  cases hv : TelemetryEvent.validate raw with
  | error e => simp [step, hv] at h
  | ok ev =>
      rw [step_ok g raw now s ev hv] at h
      injection h with h1 h2
      injection h1 with hresp hrec
      subst hresp
      subst hrec
      rfl

/-- In every run, each successful outcome's record carries the returned
identifier as its `id`. -/
theorem runFrom_success_id (g : Nat → String)
    (inputs : List (RawSubmission × Time)) :
    ∀ s, ∀ o ∈ (runFrom g s inputs).1, ∀ resp rec,
      o = .success resp rec → rec.id = resp.request_id := by
  induction inputs with
  | nil =>
      intro s o ho
      simp [runFrom] at ho
  | cons p rest ih =>
      intro s o ho resp rec heq
      obtain ⟨raw, now⟩ := p
      rw [runFrom_cons] at ho
      rcases List.mem_cons.mp ho with ho | ho
      · subst heq
        refine step_success_id g raw now s (step g raw now s).2 resp rec ?_
        calc step g raw now s
            = ((step g raw now s).1, (step g raw now s).2) := rfl
          _ = (.success resp rec, (step g raw now s).2) := by rw [ho]
      · exact ih _ o ho resp rec heq

/-- C3: along any run of the service, the identifiers returned by the
successful requests are pairwise distinct — each success consumes a fresh
`uuid.uuid4()` draw, a draw index is used at most once across the lifetime
of the run, and the uuid contract (modelled as injectivity of the entropy
stream) makes distinct draws distinct identifiers; no identifier is ever
reassigned or reused, and each success's constructed record carries the
returned identifier as its `id`. -/
theorem C3_issued_identifiers_distinct (g : Nat → String)
    (hinj : Function.Injective g) (inputs : List (RawSubmission × Time))
    (s : SysState) :
    (issuedIds (runFrom g s inputs).1).Nodup ∧
    ∀ o ∈ (runFrom g s inputs).1, ∀ resp rec,
      o = .success resp rec → rec.id = resp.request_id := by
  refine ⟨?_, runFrom_success_id g inputs s⟩
  induction inputs generalizing s with
  | nil => simp [runFrom, issuedIds]
  | cons p rest ih =>
      obtain ⟨raw, now⟩ := p
      rw [runFrom_cons]
      cases hv : TelemetryEvent.validate raw with
      | error e =>
          simpa only [step_error g raw now s e hv,
            issuedIds_clientError_cons] using ih s
      | ok ev =>
          simp only [step_ok g raw now s ev hv, issuedIds_success_cons,
            List.nodup_cons]
          refine ⟨?_, ih _⟩
          intro hmem
          obtain ⟨k, hk, hxk⟩ := mem_issuedIds_runFrom g rest _ _ hmem
          have hsk : s.uuidCalls = k := hinj hxk
          simp only at hk
          omega

/-- An injective stand-in entropy stream used to evaluate C3: the n-th draw
is the string of n copies of one character. -/
def replicateGen : Nat → String := fun n => String.mk (List.replicate n 'a')

theorem replicateGen_injective : Function.Injective replicateGen := by
  intro a b h
  have h2 : List.replicate a 'a' = List.replicate b 'a' := by
    injection h
  simpa using congrArg List.length h2

/-- Witness for C3 on a concrete two-request run. -/
theorem C3_witness :
    (issuedIds (runFrom replicateGen { store := [], uuidCalls := 0 }
      [(scenarioSubmission, 5), (timedSubmission, 7)]).1).Nodup :=
  (C3_issued_identifiers_distinct replicateGen replicateGen_injective
    [(scenarioSubmission, 5), (timedSubmission, 7)]
    { store := [], uuidCalls := 0 }).1

theorem sysAssignedTimes_cons_clientError (raw : RawSubmission) (now : Time)
    (e : String) (rest : List ((RawSubmission × Time) × RequestOutcome)) :
    sysAssignedTimes (((raw, now), .clientError e) :: rest) =
      sysAssignedTimes rest := by
  cases hts : raw.timestamp <;> simp [sysAssignedTimes, hts]

theorem sysAssignedTimes_cons_some (raw : RawSubmission) (now : Time)
    (t : Time) (o : RequestOutcome)
    (rest : List ((RawSubmission × Time) × RequestOutcome))
    (hsome : raw.timestamp = some t) :
    sysAssignedTimes (((raw, now), o) :: rest) = sysAssignedTimes rest := by
  cases o <;> simp [sysAssignedTimes, hsome]

theorem sysAssignedTimes_cons_none_success (raw : RawSubmission) (now : Time)
    (resp : TelemetryResponse) (rec : TelemetryRecord)
    (rest : List ((RawSubmission × Time) × RequestOutcome))
    (hnone : raw.timestamp = none) :
    sysAssignedTimes (((raw, now), .success resp rec) :: rest) =
      rec.timestamp :: sysAssignedTimes rest := by
  simp [sysAssignedTimes, hnone]

/-- The timestamps the system itself assigned during a run form a sublist of
the wall-clock instants of the requests, in request order: each one equals
the wall clock read during its own request. -/
theorem sysAssignedTimes_sublist (g : Nat → String)
    (inputs : List (RawSubmission × Time)) :
    ∀ s, List.Sublist
      (sysAssignedTimes (inputs.zip (runFrom g s inputs).1))
      (inputs.map fun p => p.2) := by
  induction inputs with
  | nil =>
      intro s
      simp [runFrom, sysAssignedTimes]
  | cons p rest ih =>
      intro s
      obtain ⟨raw, now⟩ := p
      rw [runFrom_cons]
      simp only [List.zip_cons_cons, List.map_cons]
      cases hv : TelemetryEvent.validate raw with
      | error e =>
          simp only [step_error g raw now s e hv]
          rw [sysAssignedTimes_cons_clientError]
          exact (ih s).cons now
      | ok ev =>
          simp only [step_ok g raw now s ev hv]
          cases hts : raw.timestamp with
          | some t =>
              rw [sysAssignedTimes_cons_some raw now t _ _ hts]
              exact (ih _).cons now
          | none =>
              rw [sysAssignedTimes_cons_none_success raw now _ _ _ hts]
              have hev : ev.timestamp = none :=
                ((validate_ok_spec raw ev hv).2.2.2.2.2.2.2).trans hts
              simp only [hev, Option.getD_none]
              exact (ih _).cons₂ now

/-- C9: for every run in which the wall clock is monotone (each request
reads a time at least as late as every earlier request), the `created_at`
values the system itself assigned — the records of successful submissions
that omitted the client timestamp — are non-decreasing in identifier
assignment order. -/
theorem C9_system_assigned_times_monotone (g : Nat → String)
    (inputs : List (RawSubmission × Time)) (s : SysState)
    (hclock : (inputs.map fun p => p.2).Pairwise (· ≤ ·)) :
    (sysAssignedTimes (inputs.zip (runFrom g s inputs).1)).Pairwise
      (· ≤ ·) :=
  hclock.sublist (sysAssignedTimes_sublist g inputs s)

/-- Witness for C9 on a concrete two-request run with clock readings 3 and
then 5, both submissions omitting the client timestamp. -/
theorem C9_witness :
    (sysAssignedTimes
      ([(scenarioSubmission, 3), (tokenSubmission, 5)].zip
        (runFrom uuidGen0 { store := [], uuidCalls := 0 }
          [(scenarioSubmission, 3), (tokenSubmission, 5)]).1)).Pairwise
      (· ≤ ·) :=
  C9_system_assigned_times_monotone uuidGen0
    [(scenarioSubmission, 3), (tokenSubmission, 5)]
    { store := [], uuidCalls := 0 } (by decide)

/-! ## Claim theorems: the spec-modelled query operations -/

theorem insertByCreated_perm (r : SpecTelemetryRecord)
    (l : List SpecTelemetryRecord) :
    List.Perm (insertByCreated r l) (r :: l) := by
  induction l with
  | nil => simp [insertByCreated]
  | cons x xs ih =>
      by_cases h : r.created_at ≤ x.created_at
      · simp [insertByCreated, h]
      · simp only [insertByCreated, if_neg h]
        exact (ih.cons x).trans (List.Perm.swap r x xs)

theorem mem_insertByCreated (r y : SpecTelemetryRecord)
    (l : List SpecTelemetryRecord) :
    y ∈ insertByCreated r l ↔ y = r ∨ y ∈ l := by
  rw [(insertByCreated_perm r l).mem_iff]
  simp

theorem insertByCreated_pairwise (r : SpecTelemetryRecord)
    (l : List SpecTelemetryRecord)
    (hl : l.Pairwise fun a b => a.created_at ≤ b.created_at) :
    (insertByCreated r l).Pairwise
      fun a b => a.created_at ≤ b.created_at := by
  induction l with
  | nil => simp [insertByCreated]
  | cons x xs ih =>
      rw [List.pairwise_cons] at hl
      obtain ⟨hx, hxs⟩ := hl
      by_cases h : r.created_at ≤ x.created_at
      · simp only [insertByCreated, if_pos h]
        refine List.Pairwise.cons ?_ (List.Pairwise.cons hx hxs)
        intro y hy
        rcases List.mem_cons.mp hy with rfl | hy
        · exact h
        · exact le_trans h (hx y hy)
      · simp only [insertByCreated, if_neg h]
        refine List.Pairwise.cons ?_ (ih hxs)
        intro y hy
        rcases (mem_insertByCreated r y xs).mp hy with rfl | hy
        · exact le_of_not_le h
        · exact hx y hy

theorem sortByCreated_perm (l : List SpecTelemetryRecord) :
    List.Perm (sortByCreated l) l := by
  induction l with
  | nil => simp [sortByCreated]
  | cons x xs ih =>
      simp only [sortByCreated]
      exact (insertByCreated_perm x (sortByCreated xs)).trans (ih.cons x)

theorem sortByCreated_pairwise (l : List SpecTelemetryRecord) :
    (sortByCreated l).Pairwise fun a b => a.created_at ≤ b.created_at := by
  induction l with
  | nil => simp [sortByCreated]
  | cons x xs ih =>
      simp only [sortByCreated]
      exact insertByCreated_pairwise x _ ih

/-- C5 (spec-modelled): `queryByApp` returns exactly the stored records
whose `app_id` matches exactly (a permutation of the matching records, and
nothing else), in non-decreasing `created_at` order, and returns the empty
sequence — not an error — when no record matches; and symmetrically for
`queryByModel` on `model_name`. -/
theorem C5_query_operations (store : List SpecTelemetryRecord)
    (app model : String) :
    List.Perm (queryByApp store app)
      (store.filter fun r => r.app_id = app) ∧
    (queryByApp store app).Pairwise
      (fun a b => a.created_at ≤ b.created_at) ∧
    (∀ r, r ∈ queryByApp store app → r.app_id = app) ∧
    ((∀ r, r ∈ store → r.app_id ≠ app) → queryByApp store app = []) ∧
    List.Perm (queryByModel store model)
      (store.filter fun r => r.model_name = model) ∧
    (queryByModel store model).Pairwise
      (fun a b => a.created_at ≤ b.created_at) ∧
    (∀ r, r ∈ queryByModel store model → r.model_name = model) ∧
    ((∀ r, r ∈ store → r.model_name ≠ model) →
      queryByModel store model = []) := by
  refine ⟨sortByCreated_perm _, sortByCreated_pairwise _, ?_, ?_,
    sortByCreated_perm _, sortByCreated_pairwise _, ?_, ?_⟩
  · intro r hr
    have hr2 := (sortByCreated_perm _).mem_iff.mp hr
    simp only [List.mem_filter, decide_eq_true_eq] at hr2
    exact hr2.2
  · intro hnone
    have hfil : (store.filter fun r => r.app_id = app) = [] := by
      simp only [List.filter_eq_nil_iff, decide_eq_true_eq]
      exact hnone
    simp only [queryByApp, hfil, sortByCreated]
  · intro r hr
    have hr2 := (sortByCreated_perm _).mem_iff.mp hr
    simp only [List.mem_filter, decide_eq_true_eq] at hr2
    exact hr2.2
  · intro hnone
    have hfil : (store.filter fun r => r.model_name = model) = [] := by
      simp only [List.filter_eq_nil_iff, decide_eq_true_eq]
      exact hnone
    simp only [queryByModel, hfil, sortByCreated]

/-- A concrete store used to evaluate the modelled query operations. -/
def demoStore : List SpecTelemetryRecord :=
  [ { id := "r1", app_id := "chatbot-v1", model_name := "gpt-4o-mini",
      prompt := "hi", response := "hello", latency_ms := 120,
      token_count := none, created_at := 5, metadata := none },
    { id := "r2", app_id := "other-app", model_name := "gpt-4o-mini",
      prompt := "p", response := "r", latency_ms := 80,
      token_count := some 7, created_at := 2, metadata := none },
    { id := "r3", app_id := "chatbot-v1", model_name := "llama3:8b",
      prompt := "q", response := "s", latency_ms := 40,
      token_count := none, created_at := 1, metadata := none } ]

/-- Witness for C5 on the concrete store: an unknown app yields the empty
sequence, and the matching records come back as an ordered permutation. -/
theorem C5_witness :
    queryByApp demoStore "nope" = [] ∧
    List.Perm (queryByApp demoStore "chatbot-v1")
      (demoStore.filter fun r => r.app_id = "chatbot-v1") ∧
    (queryByApp demoStore "chatbot-v1").Pairwise
      (fun a b => a.created_at ≤ b.created_at) :=
  ⟨(C5_query_operations demoStore "nope" "x").2.2.2.1 (by decide),
   (C5_query_operations demoStore "chatbot-v1" "x").1,
   (C5_query_operations demoStore "chatbot-v1" "x").2.1⟩
